import Mathlib

/-!
Shallow embedding of `tutorial/source/bayesian_regression.ipynb`.

Real-valued tensors are modelled over `ℚ` (the script's float arithmetic is
modelled exactly, ignoring rounding); a vector is a `List ℚ` and a 2-d tensor
a `List (List ℚ)` of its rows.  Randomness is modelled by explicit draw
streams passed as arguments: `urand i j` is the `(i,j)` draw of
`np.random.rand`, and a standard-normal stream `g : ℕ → ℚ` models the normal
sources, `np.random.normal(loc, scale)` producing `loc + scale * g i`
(location-scale form of the Gaussian).  Library internals that the notebook
only calls (the Adam update, autodiff bookkeeping, the ELBO estimator,
`softplus`) are abstracted as function parameters, as the spec places them
out of scope.  Failing `assert` statements are modelled by `Except`.
-/

abbrev Vec := List ℚ

abbrev Mat := List (List ℚ)

/-- Dot product of two vectors, `∑ aᵢ * bᵢ` over the common prefix. -/
def dot (a b : Vec) : ℚ := (a.zipWith (· * ·) b).sum

/-- Elementwise sum of two vectors (`+` on numpy arrays of equal shape). -/
def vadd (a b : Vec) : Vec := a.zipWith (· + ·) b

/-- `np.random.rand(N, p)`: an `N × p` matrix of uniform draws from the stream `urand`. -/
def np_random_rand (urand : ℕ → ℕ → ℚ) (N p : ℕ) : Mat :=
  (List.range N).map fun i => (List.range p).map fun j => urand i j

/-- `np.ones(p)`. -/
def np_ones (p : ℕ) : Vec := List.replicate p 1

/-- `c * v` for a numpy array `v`: elementwise scaling. -/
def smulVec (c : ℚ) (v : Vec) : Vec := v.map fun x => c * x

/-- `np.repeat(v, N)`. -/
def np_repeat (v : ℚ) (N : ℕ) : Vec := List.replicate N v

/-- `np.matmul(X, w)` of an `N × p` matrix with a length-`p` vector. -/
def np_matmul_vec (X : Mat) (w : Vec) : Vec := X.map fun r => dot r w

/-- `np.random.normal(loc, scale, size=n)`: `n` draws `loc + scale * g i`
from the standard-normal stream `g` (location-scale form). -/
def np_random_normal (g : ℕ → ℚ) (loc scale : ℚ) (n : ℕ) : Vec :=
  (List.range n).map fun i => loc + scale * g i

/-- `torch.cat((X, y), 1)` of an `N × p` matrix with an `N × 1` column:
append `y i` to row `i`. -/
def torch_cat_cols (X : Mat) (y : Vec) : Mat :=
  X.zipWith (fun r v => r ++ [v]) y

/-- `build_linear_dataset(N, p=1, noise_std=0.01)` from the notebook:
`X = np.random.rand(N, p)`, `w = 3 * np.ones(p)`,
`y = np.matmul(X, w) + np.repeat(1, N) + np.random.normal(0, noise_std, size=N)`,
`data = torch.cat((X, y), 1)`, `assert data.shape == (N, p + 1)`.
The assert is modelled by `Except`: shape of a rectangular list-matrix. -/
def build_linear_dataset (urand : ℕ → ℕ → ℚ) (g : ℕ → ℚ) (N : ℕ)
    (p : ℕ := 1) (noise_std : ℚ := 1/100) : Except String Mat :=
  let X := np_random_rand urand N p
  let w := smulVec 3 (np_ones p)
  let y := vadd (vadd (np_matmul_vec X w) (np_repeat 1 N))
      (np_random_normal g 0 noise_std N)
  let data := torch_cat_cols X y
  if data.length = N ∧ data.all (fun r => r.length = p + 1) then .ok data
  else .error "assert data.shape == (N, p + 1)"

/-- Row `i` of the sampled feature matrix `X`. -/
def featRow (urand : ℕ → ℕ → ℚ) (p i : ℕ) : Vec :=
  (List.range p).map fun j => urand i j

/-- Closed form of the dataset `build_linear_dataset` returns: row `i` is the
feature row followed by `X·w + 1 + εᵢ` with `w = (3,…,3)` and
`εᵢ = 0 + noise_std · gᵢ`. -/
def datasetClosedForm (urand : ℕ → ℕ → ℚ) (g : ℕ → ℚ) (N p : ℕ)
    (noise_std : ℚ) : Mat :=
  (List.range N).map fun i =>
    featRow urand p i ++
      [dot (featRow urand p i) (List.replicate p 3) + 1 + (0 + noise_std * g i)]

theorem zipWith_range_map {α β γ : Type} (f : α → β → γ) (a : ℕ → α) (b : ℕ → β)
    (N : ℕ) :
    List.zipWith f ((List.range N).map a) ((List.range N).map b) =
      (List.range N).map fun i => f (a i) (b i) := by
  rw [List.zipWith_map, List.zipWith_same]

theorem replicate_eq_range_map {α : Type} (c : α) (N : ℕ) :
    List.replicate N c = (List.range N).map fun _ => c := by
  induction N with
  | zero => rfl
  | succ n ih =>
    rw [List.range_succ, List.replicate_succ', ih, List.map_append]
    rfl

theorem smulVec_ones (p : ℕ) : smulVec 3 (np_ones p) = List.replicate p 3 := by
  simp [smulVec, np_ones, List.map_replicate]

theorem np_random_rand_eq (urand : ℕ → ℕ → ℚ) (N p : ℕ) :
    np_random_rand urand N p = (List.range N).map (featRow urand p) := rfl

theorem build_linear_dataset_data (urand : ℕ → ℕ → ℚ) (g : ℕ → ℚ)
    (N p : ℕ) (noise_std : ℚ) :
    torch_cat_cols (np_random_rand urand N p)
      (vadd (vadd (np_matmul_vec (np_random_rand urand N p)
          (smulVec 3 (np_ones p))) (np_repeat 1 N))
        (np_random_normal g 0 noise_std N)) =
    datasetClosedForm urand g N p noise_std := by
  rw [smulVec_ones, np_random_rand_eq]
  have hrep : np_repeat (1:ℚ) N = (List.range N).map fun _ => (1:ℚ) := by
    rw [np_repeat, replicate_eq_range_map]
  have hmm : np_matmul_vec ((List.range N).map (featRow urand p))
      (List.replicate p 3) =
      (List.range N).map fun i => dot (featRow urand p i) (List.replicate p 3) := by
    simp [np_matmul_vec]
  rw [hmm, hrep]
  have hv1 : vadd ((List.range N).map fun i => dot (featRow urand p i) (List.replicate p 3))
      ((List.range N).map fun _ => (1:ℚ)) =
      (List.range N).map fun i => dot (featRow urand p i) (List.replicate p 3) + 1 := by
    rw [vadd, zipWith_range_map]
  rw [hv1]
  have hv2 : vadd ((List.range N).map fun i => dot (featRow urand p i) (List.replicate p 3) + 1)
      (np_random_normal g 0 noise_std N) =
      (List.range N).map fun i =>
        dot (featRow urand p i) (List.replicate p 3) + 1 + (0 + noise_std * g i) := by
    rw [vadd, np_random_normal, zipWith_range_map]
  rw [hv2]
  rw [torch_cat_cols, zipWith_range_map, datasetClosedForm]

theorem build_linear_dataset_eq (urand : ℕ → ℕ → ℚ) (g : ℕ → ℚ)
    (N p : ℕ) (noise_std : ℚ) :
    build_linear_dataset urand g N p noise_std =
      .ok (datasetClosedForm urand g N p noise_std) := by
  simp only [build_linear_dataset]
  rw [build_linear_dataset_data]
  have hlen : (datasetClosedForm urand g N p noise_std).length = N := by
    simp [datasetClosedForm]
  have hall : (datasetClosedForm urand g N p noise_std).all
      (fun r => r.length = p + 1) = true := by
    simp only [datasetClosedForm, List.all_eq_true]
    intro r hr
    simp only [List.mem_map] at hr
    obtain ⟨i, _, rfl⟩ := hr
    simp [featRow]
  rw [if_pos ⟨hlen, hall⟩]

/-- C1: for every `N ≥ 1`, `p ≥ 1` and every draw of the random sources,
`build_linear_dataset(N, p, noise_std)` returns a tensor of shape `(N, p+1)`
whose first `p` columns are the sampled feature matrix `X` and whose last
column is `X·w + 1 + ε`, with every component of `w` equal to `3`, additive
bias `1`, and `εᵢ = 0 + noise_std · gᵢ` a mean-0 Gaussian draw of standard
deviation `noise_std` (default `0.01`). -/
theorem c1_build_linear_dataset_shape_and_values
    (urand : ℕ → ℕ → ℚ) (g : ℕ → ℚ) (N p : ℕ) (noise_std : ℚ)
    (hN : 1 ≤ N) (hp : 1 ≤ p) :
    build_linear_dataset urand g N p noise_std =
      .ok ((List.range N).map fun i =>
        featRow urand p i ++
          [dot (featRow urand p i) (List.replicate p 3) + 1 +
            (0 + noise_std * g i)]) ∧
    (datasetClosedForm urand g N p noise_std).length = N ∧
    (∀ r ∈ datasetClosedForm urand g N p noise_std, r.length = p + 1) ∧
    (∀ r ∈ datasetClosedForm urand g N p noise_std, r.take p ∈
        List.map (featRow urand p) (List.range N)) ∧
    build_linear_dataset urand g N = build_linear_dataset urand g N 1 (1/100) := by
  refine ⟨build_linear_dataset_eq urand g N p noise_std, by simp [datasetClosedForm], ?_, ?_, rfl⟩
  · intro r hr
    simp only [datasetClosedForm, List.mem_map] at hr
    obtain ⟨i, _, rfl⟩ := hr
    simp [featRow]
  · intro r hr
    simp only [datasetClosedForm, List.mem_map] at hr
    obtain ⟨i, hi, rfl⟩ := hr
    have hlen : (featRow urand p i).length = p := by simp [featRow]
    rw [List.take_append_of_le_length (by rw [hlen]), List.take_of_length_le (by rw [hlen])]
    exact List.mem_map.mpr ⟨i, hi, rfl⟩

theorem c1_witness :
    build_linear_dataset (fun i j => (i : ℚ) + j + 1/2) (fun i => (i : ℚ) + 1)
        2 1 (1/100) =
      .ok [[1/2, 1/2 * 3 + 0 + 1 + (0 + 1/100 * 1)],
           [3/2, 3/2 * 3 + 0 + 1 + (0 + 1/100 * 2)]] := by
  have h := (c1_build_linear_dataset_shape_and_values
    (fun i j => (i : ℚ) + j + 1/2) (fun i => (i : ℚ) + 1) 2 1 (1/100)
    (by decide) (by decide)).1
  rw [h]
  simp only [Except.ok.injEq]
  norm_num [featRow, dot, List.range_succ]

/-- C9: for every `N ≥ 1`, `p ≥ 1` and every draw of the random sources, the
assertion `data.shape == (N, p + 1)` in `build_linear_dataset` holds, so the
function always returns normally. -/
theorem c9_dataset_assert_unreachable
    (urand : ℕ → ℕ → ℚ) (g : ℕ → ℚ) (N p : ℕ) (noise_std : ℚ)
    (hN : 1 ≤ N) (hp : 1 ≤ p) :
    ∃ d, build_linear_dataset urand g N p noise_std = .ok d :=
  ⟨_, build_linear_dataset_eq urand g N p noise_std⟩

theorem c9_witness :
    ∃ d, build_linear_dataset (fun _ _ => 1/3) (fun _ => 0) 5 2 (1/100) = .ok d :=
  c9_dataset_assert_unreachable (fun _ _ => 1/3) (fun _ => 0) 5 2 (1/100)
    (by decide) (by decide)

/-- `torch.nn.Linear(inF, outF)`: a weight matrix of shape `(outF, inF)` and a
bias of length `outF`, with entries drawn from the initialisation streams
`winit`, `binit` (PyTorch initialises them randomly). -/
structure Linear where
  weight : Mat
  bias : Vec
deriving Repr, DecidableEq

def nnLinear (inF outF : ℕ) (winit : ℕ → ℕ → ℚ) (binit : ℕ → ℚ) : Linear :=
  ⟨(List.range outF).map fun k => (List.range inF).map fun j => winit k j,
   (List.range outF).map fun k => binit k⟩

/-- `Linear.__call__`: row `i` of the output is
`(dot x_i w_k + b_k)` for each output feature `k` (`x Wᵀ + b`). -/
def Linear.forward (l : Linear) (x : Mat) : Mat :=
  x.map fun r => l.weight.zipWith (fun wr bk => dot r wr + bk) l.bias

/-- Total number of scalar learnable parameters of a linear layer. -/
def Linear.numParams (l : Linear) : ℕ :=
  (l.weight.map List.length).sum + l.bias.length

/-- `RegressionModel(p)` from the notebook: `self.linear = nn.Linear(p, 1)`,
and `forward(x)` returns `self.linear(x)`; its only submodule is `linear`. -/
structure RegressionModel where
  linear : Linear
deriving Repr, DecidableEq

def RegressionModel.init (p : ℕ) (winit : ℕ → ℕ → ℚ) (binit : ℕ → ℚ) :
    RegressionModel :=
  ⟨nnLinear p 1 winit binit⟩

def RegressionModel.forward (m : RegressionModel) (x : Mat) : Mat :=
  m.linear.forward x

/-- C5: `RegressionModel(1)` contains exactly one linear layer with exactly
two scalar learnable parameters — a `1×1` weight and a length-1 bias — and for
every input `x` its forward method returns `x·w + b` and nothing else. -/
theorem c5_regression_model_two_params
    (winit : ℕ → ℕ → ℚ) (binit : ℕ → ℚ) :
    (RegressionModel.init 1 winit binit).linear.weight.length = 1 ∧
    (RegressionModel.init 1 winit binit).linear.weight.map List.length = [1] ∧
    (RegressionModel.init 1 winit binit).linear.bias.length = 1 ∧
    (RegressionModel.init 1 winit binit).linear.numParams = 2 ∧
    ∀ xs : Vec, (RegressionModel.init 1 winit binit).forward (xs.map fun a => [a]) =
      xs.map fun a => [a * winit 0 0 + binit 0] := by
  refine ⟨rfl, rfl, rfl, rfl, ?_⟩
  · intro xs
    have hm : RegressionModel.init 1 winit binit =
        ⟨⟨[[winit 0 0]], [binit 0]⟩⟩ := rfl
    rw [hm]
    simp only [RegressionModel.forward, Linear.forward, List.map_map]
    refine List.map_congr_left fun a _ => ?_
    show [dot [a] [winit 0 0] + binit 0] = [a * winit 0 0 + binit 0]
    simp [dot]

/-- The in-process Pyro parameter store: name/value pairs (every parameter in
this script is a single scalar). -/
abbrev ParamStore := List (String × ℚ)

/-- `pyro.param(name, init)`: return the stored value when `name` is present,
otherwise register `init` under `name` and return it. -/
def pyro_param (store : ParamStore) (name : String) (init : ℚ) :
    ParamStore × ℚ :=
  match store.lookup name with
  | some v => (store, v)
  | none => (store ++ [(name, init)], init)

/-- `pyro.clear_param_store()`. -/
def pyro_clear_param_store (_ : ParamStore) : ParamStore := []

/-- Result of one call of `guide`: the updated store, the four
`pyro.param` sites in call order as `(name, init passed, value in effect)`,
and the regressor sampled by `random_module`. -/
structure GuideResult where
  store : ParamStore
  sites : List (String × ℚ × ℚ)
  sampled : RegressionModel
deriving Repr, DecidableEq

/-- `guide(data)` from the notebook.  `softplus` stands for
`torch.nn.Softplus()`, `randn` for the `torch.randn` draws of this call, and
`g` for the standard-normal draws used when `lifted_module()` samples
`linear.weight ~ Normal(mw, sw)` and `linear.bias ~ Normal(mb, sb)`
(location-scale form).  `0.05 * randn` models
`torch.tensor(-3.0 * torch.ones(..) + 0.05 * torch.randn(..))`. -/
def guide (softplus : ℚ → ℚ) (randn : ℕ → ℚ) (g : ℕ → ℚ)
    (store : ParamStore) (data : Option Mat) : GuideResult :=
  let w_loc := randn 0
  let w_log_sig := -3 * 1 + 1/20 * randn 1
  let b_loc := randn 2
  let b_log_sig := -3 * 1 + 1/20 * randn 3
  let s1v := pyro_param store "guide_mean_weight" w_loc
  let s2v := pyro_param s1v.1 "guide_log_scale_weight" w_log_sig
  let sw := softplus s2v.2
  let s3v := pyro_param s2v.1 "guide_mean_bias" b_loc
  let s4v := pyro_param s3v.1 "guide_log_scale_bias" b_log_sig
  let sb := softplus s4v.2
  let w := s1v.2 + sw * g 0
  let b := s3v.2 + sb * g 1
  { store := s4v.1,
    sites := [("guide_mean_weight", w_loc, s1v.2),
              ("guide_log_scale_weight", w_log_sig, s2v.2),
              ("guide_mean_bias", b_loc, s3v.2),
              ("guide_log_scale_bias", b_log_sig, s4v.2)],
    sampled := ⟨⟨[[w]], [b]⟩⟩ }

/-- C10: the guide never reads its `data` argument — for any two argument
values (including `None`) and identical random draws and parameter-store
contents, `guide(data)` produces identical results: the same updated store,
the same four registered parameters, and the same sampled regressor. -/
theorem c10_guide_ignores_data (softplus : ℚ → ℚ) (randn g : ℕ → ℚ)
    (store : ParamStore) (d1 d2 : Option Mat) :
    guide softplus randn g store d1 = guide softplus randn g store d2 ∧
    (guide softplus randn g store d1).sites.map Prod.fst =
      ["guide_mean_weight", "guide_log_scale_weight",
       "guide_mean_bias", "guide_log_scale_bias"] :=
  ⟨rfl, rfl⟩

/-- `N = 100  # size of toy data`. -/
def N : ℕ := 100

/-- `t.squeeze(-1)` for an `n × 1` tensor. -/
def squeezeLast (m : Mat) : Vec := m.map fun r => r.headD 0

/-- `loss_fn = torch.nn.MSELoss(size_average=False)`: sum of squared errors. -/
def loss_fn (pred target : Vec) : ℚ :=
  (pred.zipWith (fun a c => (a - c) ^ 2) target).sum

/-- `data[:, :-1]`: all but the last column. -/
def featCols (d : Mat) : Mat := d.map fun r => r.dropLast

/-- `data[:, -1]`: the last column. -/
def labelCol (d : Mat) : Vec := d.map fun r => r.getLastD 0

/-- The global `regression_model = RegressionModel(1)` with current parameter
values `w` (the 1×1 `linear.weight`) and `b` (the length-1 `linear.bias`). -/
def regression_model (w b : ℚ) : RegressionModel := ⟨⟨[[w]], [b]⟩⟩

/-- Analytic gradient of the summed-squares loss in `linear.weight`
(what `loss.backward()` computes through the external autodiff):
`∑ᵢ 2·(w xᵢ + b - yᵢ)·xᵢ`. -/
def ssegradW (xd : Mat) (yd : Vec) (w b : ℚ) : ℚ :=
  (((squeezeLast ((regression_model w b).forward xd)).zipWith
      (fun a y => 2 * (a - y)) yd).zipWith (· * ·) (squeezeLast xd)).sum

/-- Analytic gradient of the summed-squares loss in `linear.bias`:
`∑ᵢ 2·(w xᵢ + b - yᵢ)`. -/
def ssegradB (xd : Mat) (yd : Vec) (w b : ℚ) : ℚ :=
  ((squeezeLast ((regression_model w b).forward xd)).zipWith
      (fun a y => 2 * (a - y)) yd).sum

/-- Mutable training state of the first `main()`: the two module parameters,
their accumulated `.grad` buffers, and the internal state of the (external)
Adam optimizer, abstracted as a value of type `A`. -/
structure Train1State (A : Type) where
  w : ℚ
  b : ℚ
  gw : ℚ
  gb : ℚ
  opt : A

/-- One iteration of the first training loop, in source order:
`y_pred = regression_model(x_data).squeeze(-1)`; `loss = loss_fn(y_pred, y_data)`;
`optim.zero_grad()` (grad buffers := 0); `loss.backward()` (gradients are
*added* to the buffers); `optim.step()` (one update by the abstract Adam
`adam : optState → (w,b) → (gw,gb) → optState × (w,b)`). -/
def step1 {A : Type} (adam : A → ℚ × ℚ → ℚ × ℚ → A × (ℚ × ℚ))
    (xd : Mat) (yd : Vec) (s : Train1State A) : Train1State A × ℚ :=
  let y_pred := squeezeLast ((regression_model s.w s.b).forward xd)
  let loss := loss_fn y_pred yd
  let s1 : Train1State A := { s with gw := 0, gb := 0 }
  let s2 : Train1State A := { s1 with gw := s1.gw + ssegradW xd yd s.w s.b,
                                      gb := s1.gb + ssegradB xd yd s.w s.b }
  let r := adam s2.opt (s2.w, s2.b) (s2.gw, s2.gb)
  ({ w := r.2.1, b := r.2.2, gw := s2.gw, gb := s2.gb, opt := r.1 }, loss)

/-- A printed line of the script, as structured data. -/
inductive Out
  | iterLoss (iter : ℕ) (loss : ℚ)
  | header (s : String)
  | paramLine (name : String) (v : ℚ)
  | svLoss (iter : ℕ) (v : ℚ)
  | psEntry (name : String) (v : ℚ)
  | evalLoss (v : ℚ)
deriving Repr, DecidableEq

/-- Training state before iteration `j` of the first loop. -/
def stateAt {A : Type} (adam : A → ℚ × ℚ → ℚ × ℚ → A × (ℚ × ℚ))
    (xd : Mat) (yd : Vec) (s0 : Train1State A) (j : ℕ) : Train1State A :=
  (fun s => (step1 adam xd yd s).1)^[j] s0

/-- Loss computed during iteration `j` of the first loop. -/
def lossAt {A : Type} (adam : A → ℚ × ℚ → ℚ × ℚ → A × (ℚ × ℚ))
    (xd : Mat) (yd : Vec) (s0 : Train1State A) (j : ℕ) : ℚ :=
  (step1 adam xd yd (stateAt adam xd yd s0 j)).2

/-- The `for j in range(num_iterations)` loop of the first `main()`,
printing the loss at every `j` with `(j + 1) % 50 == 0`. -/
def loop1 {A : Type} (adam : A → ℚ × ℚ → ℚ × ℚ → A × (ℚ × ℚ))
    (xd : Mat) (yd : Vec) (n : ℕ) (s0 : Train1State A) :
    Train1State A × List Out :=
  (List.range n).foldl (fun acc j =>
    let r := step1 adam xd yd acc.1
    (r.1, acc.2 ++ if (j + 1) % 50 = 0 then [.iterLoss (j + 1) r.2] else []))
    (s0, [])

/-- The first `main()`: build the dataset once, split it into feature and
label columns, run the training loop, then print every learned parameter. -/
def main1 {A : Type} (adam : A → ℚ × ℚ → ℚ × ℚ → A × (ℚ × ℚ))
    (urand : ℕ → ℕ → ℚ) (g : ℕ → ℚ) (n : ℕ) (s0 : Train1State A) :
    Except String (Train1State A × List Out) :=
  match build_linear_dataset urand g N with
  | .error e => .error e
  | .ok data =>
    let x_data := featCols data
    let y_data := labelCol data
    let r := loop1 adam x_data y_data n s0
    .ok (r.1, r.2 ++ [.header "Learned parameters:",
                      .paramLine "linear.weight" r.1.w,
                      .paramLine "linear.bias" r.1.b])

theorem step1_eq {A : Type} (adam : A → ℚ × ℚ → ℚ × ℚ → A × (ℚ × ℚ))
    (xd : Mat) (yd : Vec) (s : Train1State A) :
    step1 adam xd yd s =
      ({ w := (adam s.opt (s.w, s.b) (ssegradW xd yd s.w s.b, ssegradB xd yd s.w s.b)).2.1,
         b := (adam s.opt (s.w, s.b) (ssegradW xd yd s.w s.b, ssegradB xd yd s.w s.b)).2.2,
         gw := ssegradW xd yd s.w s.b,
         gb := ssegradB xd yd s.w s.b,
         opt := (adam s.opt (s.w, s.b) (ssegradW xd yd s.w s.b, ssegradB xd yd s.w s.b)).1 },
       loss_fn (squeezeLast ((regression_model s.w s.b).forward xd)) yd) := by
  simp only [step1, zero_add]

theorem loop1_eq {A : Type} (adam : A → ℚ × ℚ → ℚ × ℚ → A × (ℚ × ℚ))
    (xd : Mat) (yd : Vec) (n : ℕ) (s0 : Train1State A) :
    loop1 adam xd yd n s0 =
      (stateAt adam xd yd s0 n,
       (List.range n).filterMap fun j =>
         if (j + 1) % 50 = 0 then some (.iterLoss (j + 1) (lossAt adam xd yd s0 j))
         else none) := by
  induction n with
  | zero => rfl
  | succ m ih =>
    rw [loop1, List.range_succ, List.foldl_append]
    rw [loop1] at ih
    rw [ih]
    simp only [List.foldl_cons, List.foldl_nil]
    rw [List.filterMap_append]
    have hst : stateAt adam xd yd s0 (m + 1) =
        (step1 adam xd yd (stateAt adam xd yd s0 m)).1 := by
      rw [stateAt, Function.iterate_succ_apply']
      rfl
    rw [hst]
    simp only [lossAt]
    by_cases h : (m + 1) % 50 = 0
    · simp [h]
    · simp [h]

theorem main1_eq {A : Type} (adam : A → ℚ × ℚ → ℚ × ℚ → A × (ℚ × ℚ))
    (urand : ℕ → ℕ → ℚ) (g : ℕ → ℚ) (n : ℕ) (s0 : Train1State A) :
    main1 adam urand g n s0 =
      .ok ((loop1 adam (featCols (datasetClosedForm urand g N 1 (1/100)))
              (labelCol (datasetClosedForm urand g N 1 (1/100))) n s0).1,
           (loop1 adam (featCols (datasetClosedForm urand g N 1 (1/100)))
              (labelCol (datasetClosedForm urand g N 1 (1/100))) n s0).2 ++
             [.header "Learned parameters:",
              .paramLine "linear.weight"
                (loop1 adam (featCols (datasetClosedForm urand g N 1 (1/100)))
                  (labelCol (datasetClosedForm urand g N 1 (1/100))) n s0).1.w,
              .paramLine "linear.bias"
                (loop1 adam (featCols (datasetClosedForm urand g N 1 (1/100)))
                  (labelCol (datasetClosedForm urand g N 1 (1/100))) n s0).1.b]) := by
  rw [main1, build_linear_dataset_eq]

/-- C2: the point-estimate fit is by gradient descent.  The first `main()`
builds the dataset once; each of the `n` iterations, in source order, runs
the regression model forward on the feature columns, computes the
sum-of-squared-errors loss against the label column, zeroes the gradients,
backpropagates, and takes one Adam step (so the parameters are updated from
the *fresh* gradient of this iteration's loss); the loss is printed at every
iteration `j` with `(j+1) % 50 == 0`, and afterwards every learned parameter
of the model is printed. -/
theorem c2_main1_point_estimate_training {A : Type}
    (adam : A → ℚ × ℚ → ℚ × ℚ → A × (ℚ × ℚ))
    (urand : ℕ → ℕ → ℚ) (g : ℕ → ℚ) (n : ℕ) (s0 : Train1State A) :
    (∃ data, build_linear_dataset urand g N = .ok data ∧
      main1 adam urand g n s0 = .ok
        (stateAt adam (featCols data) (labelCol data) s0 n,
         ((List.range n).filterMap fun j =>
            if (j + 1) % 50 = 0
            then some (Out.iterLoss (j + 1)
              (lossAt adam (featCols data) (labelCol data) s0 j))
            else none) ++
          [.header "Learned parameters:",
           .paramLine "linear.weight"
             (stateAt adam (featCols data) (labelCol data) s0 n).w,
           .paramLine "linear.bias"
             (stateAt adam (featCols data) (labelCol data) s0 n).b])) ∧
    (∀ (xd : Mat) (yd : Vec) (s : Train1State A),
      (step1 adam xd yd s).2 =
        loss_fn (squeezeLast ((regression_model s.w s.b).forward xd)) yd ∧
      (step1 adam xd yd s).1.gw = ssegradW xd yd s.w s.b ∧
      (step1 adam xd yd s).1.gb = ssegradB xd yd s.w s.b ∧
      ((step1 adam xd yd s).1.w, (step1 adam xd yd s).1.b) =
        (adam s.opt (s.w, s.b) (ssegradW xd yd s.w s.b, ssegradB xd yd s.w s.b)).2 ∧
      (step1 adam xd yd s).1.opt =
        (adam s.opt (s.w, s.b) (ssegradW xd yd s.w s.b, ssegradB xd yd s.w s.b)).1) ∧
    (∀ (xd : Mat) (yd : Vec) (s : Train1State A) (j : ℕ),
      stateAt adam xd yd s (j + 1) = (step1 adam xd yd (stateAt adam xd yd s j)).1) := by
  refine ⟨⟨datasetClosedForm urand g N 1 (1/100),
      build_linear_dataset_eq urand g N 1 (1/100), ?_⟩, ?_, ?_⟩
  · rw [main1_eq, loop1_eq]
  · intro xd yd s
    rw [step1_eq]
    exact ⟨rfl, rfl, rfl, rfl, rfl⟩
  · intro xd yd s j
    rw [stateAt, Function.iterate_succ_apply']
    rfl

/-- Result of one run of `model(data)`: the sampled parameters, the
prediction mean, the observation noise scale vector
`0.1 * torch.ones(data.size(0))`, and the observed values. -/
structure ModelResult where
  w : ℚ
  b : ℚ
  predictionMean : Vec
  obsScale : Vec
  obs : Vec
deriving Repr, DecidableEq

/-- `model(data)` from the notebook: sample `linear.weight ~ Normal(0, 10)`
and `linear.bias ~ Normal(0, 10)` through `random_module` (location-scale
form over the standard-normal stream `g`), run the sampled regressor forward
on `data[:, :-1]`, and condition `obs ~ Normal(prediction_mean, 0.1)` on
`data[:, -1]`.  Called with `None` the subscripts raise, modelled as
`Except.error`. -/
def model (g : ℕ → ℚ) (data : Option Mat) : Except String ModelResult :=
  match data with
  | none => .error "TypeError: NoneType object is not subscriptable"
  | some d =>
    let w := 0 + 10 * g 0
    let b := 0 + 10 * g 1
    let x_data := featCols d
    let y_data := labelCol d
    let lifted_reg_model := regression_model w b
    let prediction_mean := squeezeLast (lifted_reg_model.forward x_data)
    .ok ⟨w, b, prediction_mean, smulVec (1/10) (np_ones d.length), y_data⟩

/-- `pyro.optim.Adam({"lr": 0.05})` and the `Trace_ELBO()` loss, as the
constructor arguments the script passes to `SVI`. -/
inductive PyroOptim
  | adam (lr : ℚ)
deriving Repr, DecidableEq

inductive ELBOLoss
  | traceELBO
deriving Repr, DecidableEq

/-- The `SVI(model, guide, optim, loss=Trace_ELBO())` object: the model/guide
pair with the optimizer and loss-type arguments of the constructor call. -/
structure SVI where
  model : (ℕ → ℚ) → Option Mat → Except String ModelResult
  guide : (ℚ → ℚ) → (ℕ → ℚ) → (ℕ → ℚ) → ParamStore → Option Mat → GuideResult
  optim : PyroOptim
  loss : ELBOLoss

/-- `svi = SVI(model, guide, optim, loss=Trace_ELBO())`. -/
def svi : SVI := ⟨model, guide, .adam (1/20), .traceELBO⟩

/-- Draw streams consumed by one `svi.step` call: the `torch.randn` draws of
the guide, the guide's sampling draws, and the model's sampling draws. -/
structure StepStreams where
  randn : ℕ → ℚ
  gGuide : ℕ → ℚ
  gModel : ℕ → ℚ

/-- Modelled from the spec: `SVI.step(data)` of `pyro.infer.SVI` (the class
itself is not under `src/`).  Per the notebook text, the `data` argument
passed to `step` is passed to both `model()` and `guide()`; `step` runs the
guide and the model, forms the `Trace_ELBO` loss estimate (`est`, abstract),
updates the parameters in the store through the optimizer (`upd`, abstract),
and returns the loss.  The returned pair records the argument given to the
guide and to the model. -/
def SVI.step (sv : SVI) (softplus : ℚ → ℚ)
    (est : GuideResult → ModelResult → ℚ)
    (upd : ParamStore → ℚ → ParamStore)
    (ss : StepStreams) (store : ParamStore) (data : Option Mat) :
    Except String (ParamStore × ℚ × (Option Mat × Option Mat)) :=
  let gr := sv.guide softplus ss.randn ss.gGuide store data
  match sv.model ss.gModel data with
  | .error e => .error e
  | .ok mr =>
    let loss := est gr mr
    .ok (upd gr.store loss, loss, (data, data))

/-- The `for j in range(num_iterations)` loop of the second `main()`:
`loss = svi.step(data)`, printing `loss / float(N)` at every `j` with
`j % 100 == 0`. -/
def loop2 (softplus : ℚ → ℚ) (est : GuideResult → ModelResult → ℚ)
    (upd : ParamStore → ℚ → ParamStore) (streams : ℕ → StepStreams)
    (data : Option Mat) (n : ℕ) (store0 : ParamStore) :
    Except String (ParamStore × List Out × List (Option Mat × Option Mat)) :=
  (List.range n).foldl (fun acc j =>
    match acc with
    | .error e => .error e
    | .ok (store, outs, calls) =>
      match svi.step softplus est upd (streams j) store data with
      | .error e => .error e
      | .ok (store', loss, call) =>
        .ok (store',
             outs ++ if j % 100 = 0 then [.svLoss (j + 1) (loss / (N : ℚ))] else [],
             calls ++ [call]))
    (.ok (store0, [], []))

/-- The second `main()`: `pyro.clear_param_store()`, build a fresh dataset,
then `num_iterations` calls of `svi.step(data)`, printing `loss / N` at every
`j` with `j % 100 == 0`.  Returns the final store, the printed lines, and the
per-iteration record of the arguments `step` handed to guide and model. -/
def main2 (softplus : ℚ → ℚ) (est : GuideResult → ModelResult → ℚ)
    (upd : ParamStore → ℚ → ParamStore) (streams : ℕ → StepStreams)
    (urand : ℕ → ℕ → ℚ) (g : ℕ → ℚ) (n : ℕ) (ps0 : ParamStore) :
    Except String (ParamStore × List Out × List (Option Mat × Option Mat)) :=
  let store0 := pyro_clear_param_store ps0
  match build_linear_dataset urand g N with
  | .error e => .error e
  | .ok data => loop2 softplus est upd streams (some data) n store0

/-- Closed form of one `model(data)` run on an actual dataset. -/
def modelClosed (g : ℕ → ℚ) (d : Mat) : ModelResult :=
  ⟨0 + 10 * g 0, 0 + 10 * g 1,
   squeezeLast ((regression_model (0 + 10 * g 0) (0 + 10 * g 1)).forward (featCols d)),
   smulVec (1/10) (np_ones d.length), labelCol d⟩

theorem model_some (g : ℕ → ℚ) (d : Mat) :
    model g (some d) = .ok (modelClosed g d) := rfl

theorem svi_step_some (softplus : ℚ → ℚ) (est : GuideResult → ModelResult → ℚ)
    (upd : ParamStore → ℚ → ParamStore) (ss : StepStreams)
    (store : ParamStore) (d : Mat) :
    svi.step softplus est upd ss store (some d) =
      .ok (upd (guide softplus ss.randn ss.gGuide store (some d)).store
             (est (guide softplus ss.randn ss.gGuide store (some d)) (modelClosed ss.gModel d)),
           est (guide softplus ss.randn ss.gGuide store (some d)) (modelClosed ss.gModel d),
           (some d, some d)) := rfl

/-- The parameter store before iteration `j` of the SVI loop. -/
def sviStoreAt (softplus : ℚ → ℚ) (est : GuideResult → ModelResult → ℚ)
    (upd : ParamStore → ℚ → ParamStore) (streams : ℕ → StepStreams)
    (d : Mat) (store0 : ParamStore) : ℕ → ParamStore
  | 0 => store0
  | j + 1 =>
    let s := sviStoreAt softplus est upd streams d store0 j
    let gr := guide softplus (streams j).randn (streams j).gGuide s (some d)
    upd gr.store (est gr (modelClosed (streams j).gModel d))

/-- The loss `svi.step` returns at iteration `j` of the SVI loop. -/
def sviLossAt (softplus : ℚ → ℚ) (est : GuideResult → ModelResult → ℚ)
    (upd : ParamStore → ℚ → ParamStore) (streams : ℕ → StepStreams)
    (d : Mat) (store0 : ParamStore) (j : ℕ) : ℚ :=
  est (guide softplus (streams j).randn (streams j).gGuide
        (sviStoreAt softplus est upd streams d store0 j) (some d))
      (modelClosed (streams j).gModel d)

theorem loop2_eq (softplus : ℚ → ℚ) (est : GuideResult → ModelResult → ℚ)
    (upd : ParamStore → ℚ → ParamStore) (streams : ℕ → StepStreams)
    (d : Mat) (n : ℕ) (store0 : ParamStore) :
    loop2 softplus est upd streams (some d) n store0 =
      .ok (sviStoreAt softplus est upd streams d store0 n,
           (List.range n).filterMap (fun j =>
             if j % 100 = 0
             then some (.svLoss (j + 1)
               (sviLossAt softplus est upd streams d store0 j / (N : ℚ)))
             else none),
           List.replicate n (some d, some d)) := by
  induction n with
  | zero => rfl
  | succ m ih =>
    rw [loop2, List.range_succ, List.foldl_append]
    rw [loop2] at ih
    rw [ih]
    simp only [List.foldl_cons, List.foldl_nil]
    rw [List.filterMap_append, svi_step_some]
    rw [List.replicate_succ']
    simp only [sviStoreAt, sviLossAt]
    by_cases h : m % 100 = 0
    · simp [h]
    · simp [h]

/-- C3: the Bayesian counterpart is fit by stochastic variational inference:
the second `main()` first clears the Pyro parameter store, builds a fresh
dataset, then calls `step(data)` `n` times on the `SVI` object constructed
from the model/guide pair with an `Adam({"lr": 0.05})` optimizer and a
`Trace_ELBO` loss, handing the same `data` to both model and guide at every
iteration, and prints `loss / N` at every iteration `j` with `j % 100 == 0`. -/
theorem c3_main2_svi_training (softplus : ℚ → ℚ)
    (est : GuideResult → ModelResult → ℚ) (upd : ParamStore → ℚ → ParamStore)
    (streams : ℕ → StepStreams) (urand : ℕ → ℕ → ℚ) (g : ℕ → ℚ)
    (n : ℕ) (ps0 : ParamStore) :
    svi.model = model ∧ svi.guide = guide ∧
    svi.optim = .adam (1/20) ∧ svi.loss = .traceELBO ∧
    (∃ data, build_linear_dataset urand g N = .ok data ∧
      main2 softplus est upd streams urand g n ps0 = .ok
        (sviStoreAt softplus est upd streams data [] n,
         (List.range n).filterMap (fun j =>
           if j % 100 = 0
           then some (.svLoss (j + 1)
             (sviLossAt softplus est upd streams data [] j / (N : ℚ)))
           else none),
         List.replicate n (some data, some data))) ∧
    (∀ ps0' : ParamStore,
      main2 softplus est upd streams urand g n ps0 =
        main2 softplus est upd streams urand g n ps0') := by
  refine ⟨rfl, rfl, rfl, rfl,
    ⟨datasetClosedForm urand g N 1 (1/100),
     build_linear_dataset_eq urand g N 1 (1/100), ?_⟩, fun ps0' => rfl⟩
  have h := loop2_eq softplus est upd streams
    (datasetClosedForm urand g N 1 (1/100)) n []
  rw [main2, build_linear_dataset_eq]
  exact h

/-- `np.linspace(a, b, num)`: `num` evenly spaced points from `a` to `b`
inclusive. -/
def linspace (a b : ℚ) (num : ℕ) : Vec :=
  (List.range num).map fun i => a + (b - a) * i / ((num : ℚ) - 1)

/-- Elementwise sum of two equally-shaped tensors (`+` on torch tensors). -/
def matAdd (a b : Mat) : Mat := a.zipWith vadd b

/-- `t / c` for a torch tensor. -/
def matDivide (a : Mat) (c : ℚ) : Mat := a.map fun r => r.map fun x => x / c

/-- `nn.MSELoss()` with the default mean reduction. -/
def mse_mean (pred target : Mat) : ℚ :=
  let q := pred.flatten.zipWith (fun x y => (x - y) ^ 2) target.flatten
  q.sum / q.length

/-- The `for i in range(20)` accumulation loop of the evaluation cell:
each iteration samples a regressor with `guide(None)` (threading the store)
and adds its prediction on `xd` to the running sum. -/
def evalLoop (softplus : ℚ → ℚ) (randn gs : ℕ → ℕ → ℚ) (xd : Mat)
    (n : ℕ) (acc0 : ParamStore × Mat) : ParamStore × Mat :=
  (List.range n).foldl (fun acc i =>
    let gr := guide softplus (randn i) (gs i) acc.1 none
    (gr.store, matAdd acc.2 (gr.sampled.forward xd))) acc0

/-- The evaluation code after SVI training: print every entry of the param
store, build the test set `X = np.linspace(6, 7, 20)`, `y = 3 * X + 1`,
sample 20 regressors from the guide accumulating `y_preds`, divide by 20 and
print the MSE against the ground truth. -/
def evalCell (softplus : ℚ → ℚ) (randn gs : ℕ → ℕ → ℚ)
    (store : ParamStore) : List Out :=
  let psPrints := store.map fun nv => Out.psEntry nv.1 nv.2
  let X := linspace 6 7 20
  let y := X.map fun x => 3 * x + 1
  let x_data : Mat := X.map fun x => [x]
  let y_data : Mat := y.map fun v => [v]
  let r := evalLoop softplus randn gs x_data 20 (store, List.replicate 20 [(0:ℚ)])
  let y_preds := matDivide r.2 20
  psPrints ++ [Out.evalLoss (mse_mean y_preds y_data)]

/-- The parameter store before the `i`-th `guide(None)` call of the
evaluation loop. -/
def evalStoreAt (softplus : ℚ → ℚ) (randn gs : ℕ → ℕ → ℚ)
    (store : ParamStore) : ℕ → ParamStore
  | 0 => store
  | i + 1 =>
    (guide softplus (randn i) (gs i)
      (evalStoreAt softplus randn gs store i) none).store

/-- The regressor sampled by the `i`-th `guide(None)` call of the evaluation
loop. -/
def sampledAt (softplus : ℚ → ℚ) (randn gs : ℕ → ℕ → ℚ)
    (store : ParamStore) (i : ℕ) : RegressionModel :=
  (guide softplus (randn i) (gs i)
    (evalStoreAt softplus randn gs store i) none).sampled

theorem evalLoop_eq (softplus : ℚ → ℚ) (randn gs : ℕ → ℕ → ℚ) (xd : Mat)
    (store : ParamStore) (init : Mat) (n : ℕ) :
    evalLoop softplus randn gs xd n (store, init) =
      (evalStoreAt softplus randn gs store n,
       ((List.range n).map fun i =>
          (sampledAt softplus randn gs store i).forward xd).foldl matAdd init) := by
  induction n with
  | zero => rfl
  | succ m ih =>
    rw [evalLoop, List.range_succ, List.foldl_append]
    rw [evalLoop] at ih
    rw [ih]
    simp only [List.foldl_cons, List.foldl_nil, List.map_append, List.map_cons,
      List.map_nil, List.foldl_append]
    exact rfl

/-- C4: the evaluation prints every entry of the Pyro parameter store, builds
the 20-point test set `X = np.linspace(6, 7, 20)` with ground truth
`y = 3·X + 1`, samples 20 regressors from the guide, sums their predictions
on the test inputs, divides the sum by 20, and prints the mean-squared error
of this averaged prediction against the ground truth. -/
theorem c4_eval_compares_predictive_loss (softplus : ℚ → ℚ)
    (randn gs : ℕ → ℕ → ℚ) (store : ParamStore) :
    evalCell softplus randn gs store =
      (store.map fun nv => Out.psEntry nv.1 nv.2) ++
      [Out.evalLoss (mse_mean
        (matDivide
          (((List.range 20).map fun i =>
              (sampledAt softplus randn gs store i).forward
                ((linspace 6 7 20).map fun x => [x])).foldl matAdd
            (List.replicate 20 [(0:ℚ)]))
          20)
        ((linspace 6 7 20).map fun x => [3 * x + 1]))] ∧
    linspace 6 7 20 = (List.range 20).map fun i => 6 + (i : ℚ) / 19 := by
  constructor
  · rw [evalCell, evalLoop_eq]
    simp only [List.map_map]
    rfl
  · rw [linspace]
    refine List.map_congr_left fun i _ => ?_
    norm_num

theorem main2_eq (softplus : ℚ → ℚ) (est : GuideResult → ModelResult → ℚ)
    (upd : ParamStore → ℚ → ParamStore) (streams : ℕ → StepStreams)
    (urand : ℕ → ℕ → ℚ) (g : ℕ → ℚ) (n : ℕ) (ps0 : ParamStore) :
    main2 softplus est upd streams urand g n ps0 =
      .ok (sviStoreAt softplus est upd streams
             (datasetClosedForm urand g N 1 (1/100)) [] n,
           (List.range n).filterMap (fun j =>
             if j % 100 = 0
             then some (.svLoss (j + 1)
               (sviLossAt softplus est upd streams
                 (datasetClosedForm urand g N 1 (1/100)) [] j / (N : ℚ)))
             else none),
           List.replicate n (some (datasetClosedForm urand g N 1 (1/100)),
                             some (datasetClosedForm urand g N 1 (1/100)))) := by
  have h := loop2_eq softplus est upd streams
    (datasetClosedForm urand g N 1 (1/100)) n []
  rw [main2, build_linear_dataset_eq]
  exact h

/-- `smoke_test = ('CI' in os.environ)`: the environment is modelled as the
list of set variable names. -/
def smoke_test (env : List String) : Bool := env.contains "CI"

/-- `num_iterations = 1000 if not smoke_test else 2`. -/
def num_iterations (smoke : Bool) : ℕ := if !smoke then 1000 else 2

/-- `assert pyro.__version__.startswith('0.3.0')`. -/
def pyroVersionOk (ver : String) : Bool := ver.startsWith "0.3.0"

/-- The whole notebook run top to bottom: the setup cell (version assertion,
smoke test, `num_iterations`), the point-estimate `main()`, the SVI `main()`,
then the param-store printout and evaluation cell, collecting every printed
line.  A failing assertion anywhere surfaces as `Except.error` of the whole
run: nothing catches it. -/
def script {A : Type} (env : List String) (ver : String)
    (adam : A → ℚ × ℚ → ℚ × ℚ → A × (ℚ × ℚ)) (s0 : Train1State A)
    (urand1 : ℕ → ℕ → ℚ) (g1 : ℕ → ℚ)
    (softplus : ℚ → ℚ) (est : GuideResult → ModelResult → ℚ)
    (upd : ParamStore → ℚ → ParamStore) (streams2 : ℕ → StepStreams)
    (urand2 : ℕ → ℕ → ℚ) (g2 : ℕ → ℚ)
    (randnE gsE : ℕ → ℕ → ℚ) (ps0 : ParamStore) : Except String (List Out) :=
  if pyroVersionOk ver then
    let smoke := smoke_test env
    let n := num_iterations smoke
    match main1 adam urand1 g1 n s0 with
    | .error e => .error e
    | .ok r1 =>
      match main2 softplus est upd streams2 urand2 g2 n ps0 with
      | .error e => .error e
      | .ok r2 =>
        .ok (r1.2 ++ r2.2.1 ++ evalCell softplus randnE gsE r2.1)
  else .error "assert pyro.__version__.startswith(0.3.0)"

/-- C7: the script performs no failure handling: it succeeds exactly when the
library-version assertion holds, i.e. a failing version assertion terminates
the whole run as an uncaught error, and no other operation can raise — in
particular the dataset-shape assertion always holds at the script's call
site, so nothing is ever caught or recovered from. -/
theorem c7_no_failure_handling {A : Type} (env : List String) (ver : String)
    (adam : A → ℚ × ℚ → ℚ × ℚ → A × (ℚ × ℚ)) (s0 : Train1State A)
    (urand1 : ℕ → ℕ → ℚ) (g1 : ℕ → ℚ)
    (softplus : ℚ → ℚ) (est : GuideResult → ModelResult → ℚ)
    (upd : ParamStore → ℚ → ParamStore) (streams2 : ℕ → StepStreams)
    (urand2 : ℕ → ℕ → ℚ) (g2 : ℕ → ℚ)
    (randnE gsE : ℕ → ℕ → ℚ) (ps0 : ParamStore) :
    (script env ver adam s0 urand1 g1 softplus est upd streams2 urand2 g2
        randnE gsE ps0).isOk = pyroVersionOk ver ∧
    (∀ (urand : ℕ → ℕ → ℚ) (g : ℕ → ℚ),
      (build_linear_dataset urand g N).isOk = true) := by
  constructor
  · by_cases h : pyroVersionOk ver = true
    · rw [script, if_pos h, h]
      simp only [main1_eq, main2_eq]
      rfl
    · rw [script, if_neg h]
      rw [Bool.not_eq_true] at h
      rw [h]
      rfl
  · intro urand g
    rw [build_linear_dataset_eq]
    rfl

/-- C6: both training loops run for the shared constant `num_iterations`,
which is `2` when the environment variable `CI` is set and `1000`
otherwise: the first loop iterates its step exactly `num_iterations` times,
and the second performs exactly `num_iterations` `svi.step` calls. -/
theorem c6_two_loops_num_iterations {A : Type} (env : List String)
    (adam : A → ℚ × ℚ → ℚ × ℚ → A × (ℚ × ℚ)) (xd : Mat) (yd : Vec)
    (s0 : Train1State A)
    (softplus : ℚ → ℚ) (est : GuideResult → ModelResult → ℚ)
    (upd : ParamStore → ℚ → ParamStore) (streams : ℕ → StepStreams)
    (urand : ℕ → ℕ → ℚ) (g : ℕ → ℚ) (ps0 : ParamStore) :
    num_iterations (smoke_test env) = (if env.contains "CI" then 2 else 1000) ∧
    (loop1 adam xd yd (num_iterations (smoke_test env)) s0).1 =
      (fun s => (step1 adam xd yd s).1)^[num_iterations (smoke_test env)] s0 ∧
    (∃ store outs,
      main2 softplus est upd streams urand g (num_iterations (smoke_test env)) ps0 =
        .ok (store, outs,
          List.replicate (num_iterations (smoke_test env))
            (some (datasetClosedForm urand g N 1 (1/100)),
             some (datasetClosedForm urand g N 1 (1/100))))) := by
  refine ⟨?_, ?_, ⟨_, _, main2_eq softplus est upd streams urand g _ ps0⟩⟩
  · cases h : env.contains "CI" <;> (rw [num_iterations, smoke_test, h]; rfl)
  · rw [loop1_eq]
    rfl

/-- C8: the script maintains no persistent state: its behaviour depends on
the environment only through membership of `CI` (the one environment read),
and the Bayesian training run resets the in-process Pyro parameter store
with `pyro.clear_param_store()` before its loop, so `main2` is independent of
whatever store it inherits. -/
theorem c8_no_persistent_state {A : Type} (env1 env2 : List String)
    (ver : String)
    (adam : A → ℚ × ℚ → ℚ × ℚ → A × (ℚ × ℚ)) (s0 : Train1State A)
    (urand1 : ℕ → ℕ → ℚ) (g1 : ℕ → ℚ)
    (softplus : ℚ → ℚ) (est : GuideResult → ModelResult → ℚ)
    (upd : ParamStore → ℚ → ParamStore) (streams2 : ℕ → StepStreams)
    (urand2 : ℕ → ℕ → ℚ) (g2 : ℕ → ℚ)
    (randnE gsE : ℕ → ℕ → ℚ) (ps0 : ParamStore)
    (henv : env1.contains "CI" = env2.contains "CI") :
    script env1 ver adam s0 urand1 g1 softplus est upd streams2 urand2 g2
        randnE gsE ps0 =
      script env2 ver adam s0 urand1 g1 softplus est upd streams2 urand2 g2
        randnE gsE ps0 ∧
    (∀ (n : ℕ) (psA psB : ParamStore),
      main2 softplus est upd streams2 urand2 g2 n psA =
        main2 softplus est upd streams2 urand2 g2 n psB) := by
  constructor
  · rw [script, script]
    have h : smoke_test env1 = smoke_test env2 := henv
    rw [h]
  · intro n psA psB
    rfl

theorem c8_witness :
    ((["CI"] : List String).contains "CI" =
      (["PATH", "CI"] : List String).contains "CI") ∧
    (script ["CI"] "0.3.0" (fun (o : Unit) p _ => (o, p)) ⟨0, 0, 0, 0, ()⟩
        (fun _ _ => 0) (fun _ => 0) (fun x => x) (fun _ _ => 0) (fun s _ => s)
        (fun _ => ⟨fun _ => 0, fun _ => 0, fun _ => 0⟩) (fun _ _ => 0)
        (fun _ => 0) (fun _ _ => 0) (fun _ _ => 0) [] =
      script ["PATH", "CI"] "0.3.0" (fun (o : Unit) p _ => (o, p)) ⟨0, 0, 0, 0, ()⟩
        (fun _ _ => 0) (fun _ => 0) (fun x => x) (fun _ _ => 0) (fun s _ => s)
        (fun _ => ⟨fun _ => 0, fun _ => 0, fun _ => 0⟩) (fun _ _ => 0)
        (fun _ => 0) (fun _ _ => 0) (fun _ _ => 0) []) :=
  ⟨by decide,
   (c8_no_persistent_state ["CI"] ["PATH", "CI"] "0.3.0"
      (fun (o : Unit) p _ => (o, p)) ⟨0, 0, 0, 0, ()⟩
      (fun _ _ => 0) (fun _ => 0) (fun x => x) (fun _ _ => 0) (fun s _ => s)
      (fun _ => ⟨fun _ => 0, fun _ => 0, fun _ => 0⟩) (fun _ _ => 0)
      (fun _ => 0) (fun _ _ => 0) (fun _ _ => 0) [] (by decide)).1⟩
